import Mathlib

/-!
Verification of the turtle deconfliction node
(deconfliction_sys/two_d_decon_sys.py).

The node tracks two turtlesim agents.  On every pose message it steers the
updated turtle away from the arena boundary, then checks the pair of latest
poses for proximity and, on conflict, publishes a stop command to turtle1 and
an advance command to turtle2.

Embedding choices: message float fields are modelled as rationals; the two
velocity publishers are modelled by returning the list of published
(turtle, twist) pairs in publication order; ROS topic dispatch of pose
messages to the two subscriptions created in the constructor is modelled by
the function deliver.
-/

namespace Decon

/-- turtlesim Pose message: the fields the node reads. -/
structure Pose where
  x : ℚ
  y : ℚ
  theta : ℚ
deriving DecidableEq, Repr

/-- geometry_msgs Twist restricted to the two fields the node ever sets;
a freshly constructed Twist has both fields zero. -/
structure Twist where
  linear_x : ℚ
  angular_z : ℚ
deriving DecidableEq, Repr

/-- The two tracked agents, named as in the node. -/
inductive Turtle where
  | turtle1
  | turtle2
deriving DecidableEq, Repr

/-- Mutable fields of TurtleDeconflictionNode set in the constructor:
the previous_x/previous_y pairs and the two optional stored poses. -/
structure NodeState where
  previous_x_turtle1 : ℚ
  previous_y_turtle1 : ℚ
  previous_x_turtle2 : ℚ
  previous_y_turtle2 : ℚ
  turtle1_pose : Option Pose
  turtle2_pose : Option Pose
deriving DecidableEq, Repr

/-- Constructor state: previous coordinates 0.0, both stored poses None. -/
def initState : NodeState :=
  { previous_x_turtle1 := 0, previous_y_turtle1 := 0
    previous_x_turtle2 := 0, previous_y_turtle2 := 0
    turtle1_pose := none, turtle2_pose := none }

/-- The command computed at the top of move_turtle: turn command
(linear 1.0, angular 0.9) when x > 9.0 or x < 2.0 or y > 9.0 or y < 2.0,
else the cruise command (linear 2.0, angular 0.0). -/
def steer_cmd (pose : Pose) : Twist :=
  if pose.x > 9 ∨ pose.x < 2 ∨ pose.y > 9 ∨ pose.y < 2 then
    { linear_x := 1, angular_z := 9/10 }
  else
    { linear_x := 2, angular_z := 0 }

/-- move_turtle: computes the steering command, stores the pose coordinates
into the previous_x/previous_y fields of the named turtle, and publishes the
command on the velocity topic of that turtle. -/
def move_turtle (s : NodeState) (turtle_name : Turtle) (pose : Pose) :
    NodeState × List (Turtle × Twist) :=
  let cmd := steer_cmd pose
  match turtle_name with
  | .turtle1 =>
      ({ s with previous_x_turtle1 := pose.x, previous_y_turtle1 := pose.y },
       [(.turtle1, cmd)])
  | .turtle2 =>
      ({ s with previous_x_turtle2 := pose.x, previous_y_turtle2 := pose.y },
       [(.turtle2, cmd)])

/-- Squared Euclidean distance between two poses; check_collision compares
math.sqrt of this quantity against the threshold 1.0. -/
def distSq (p1 p2 : Pose) : ℚ :=
  (p1.x - p2.x) ^ 2 + (p1.y - p2.y) ^ 2

/-- The conflict test of check_collision: sqrt(distSq) < 1.0.  Since the
square root is strictly monotone and both sides are nonnegative, this equals
distSq < 1; the equivalence with the sqrt form is proved in the theorem
conflict_iff_sqrt_lt_threshold below. -/
def in_conflict (p1 p2 : Pose) : Bool :=
  distSq p1 p2 < 1

/-- avoid_collision: publishes a stop command (a fresh Twist with linear.x
set to 0.0, angular untouched at 0) to turtle1 and a move command (linear.x
2.0) to turtle2, in that order. -/
def avoid_collision : List (Turtle × Twist) :=
  [(.turtle1, { linear_x := 0, angular_z := 0 }),
   (.turtle2, { linear_x := 2, angular_z := 0 })]

/-- check_collision: when both stored poses are present and their distance
is below 1.0, runs avoid_collision; otherwise publishes nothing. -/
def check_collision (s : NodeState) : List (Turtle × Twist) :=
  match s.turtle1_pose, s.turtle2_pose with
  | some p1, some p2 => if in_conflict p1 p2 then avoid_collision else []
  | _, _ => []

/-- pose_callback_turtle1: stores the pose, runs move_turtle for turtle1,
then check_collision; the published commands appear in that order. -/
def pose_callback_turtle1 (s : NodeState) (pose : Pose) :
    NodeState × List (Turtle × Twist) :=
  let s1 := { s with turtle1_pose := some pose }
  let r := move_turtle s1 .turtle1 pose
  (r.1, r.2 ++ check_collision r.1)

/-- pose_callback_turtle2: stores the pose, runs move_turtle for turtle2,
then check_collision. -/
def pose_callback_turtle2 (s : NodeState) (pose : Pose) :
    NodeState × List (Turtle × Twist) :=
  let s1 := { s with turtle2_pose := some pose }
  let r := move_turtle s1 .turtle2 pose
  (r.1, r.2 ++ check_collision r.1)

/-- Dispatch of a pose update to the callback of the named turtle. -/
def pose_callback : Turtle → NodeState → Pose → NodeState × List (Turtle × Twist)
  | .turtle1 => pose_callback_turtle1
  | .turtle2 => pose_callback_turtle2

/-- The stored pose field of the given turtle. -/
def poseOf : Turtle → NodeState → Option Pose
  | .turtle1, s => s.turtle1_pose
  | .turtle2, s => s.turtle2_pose

/-- The stored pose field of the other turtle. -/
def otherPose : Turtle → NodeState → Option Pose
  | .turtle1, s => s.turtle2_pose
  | .turtle2, s => s.turtle1_pose

/-- The subscription table created in the node constructor: the node
subscribes exactly to the pose topics of turtle1 and turtle2. -/
def turtleOfName (name : String) : Option Turtle :=
  if name = "turtle1" then some .turtle1
  else if name = "turtle2" then some .turtle2
  else none

/-- Delivery of a pose message for the named agent: a message for one of the
two subscribed turtles runs its callback; the node holds no subscription for
any other name, so such a message reaches no callback, changes no state and
publishes nothing.  The code contains no error path for this case. -/
def deliver (s : NodeState) (name : String) (pose : Pose) :
    NodeState × List (Turtle × Twist) :=
  match turtleOfName name with
  | some t => pose_callback t s pose
  | none => (s, [])

/-- Processing a sequence of pose updates from a state, collecting every
published (turtle, twist) pair in order. -/
def runEmits (s : NodeState) : List (Turtle × Pose) → List (Turtle × Twist)
  | [] => []
  | (t, p) :: rest => (pose_callback t s p).2 ++ runEmits (pose_callback t s p).1 rest

/-- Agent name with no subscription in the node. -/
def unknownName : String := "turtle3"

/-- Squared distance is symmetric in its two poses. -/
theorem distSq_comm (p1 p2 : Pose) : distSq p1 p2 = distSq p2 p1 := by
  simp only [distSq]; ring

/-- Claim C1: whenever both poses are stored and they are in conflict
(distance below the threshold), check_collision publishes exactly the
full-stop command for turtle1 followed by the advance command for turtle2.
The published pair is a fixed constant, so it does not depend on the
baseline steering commands computed that tick. -/
theorem conflict_resolution_override (s : NodeState) (p1 p2 : Pose)
    (h1 : s.turtle1_pose = some p1) (h2 : s.turtle2_pose = some p2)
    (hc : distSq p1 p2 < 1) :
    check_collision s =
      [(Turtle.turtle1, { linear_x := 0, angular_z := 0 }),
       (Turtle.turtle2, { linear_x := 2, angular_z := 0 })] := by
  simp [check_collision, h1, h2, in_conflict, hc, avoid_collision]

/-- Witness for C1: poses (5,5) and (5.5,5.5) are in conflict and yield the
stop/advance pair. -/
theorem conflict_resolution_override_witness :
    check_collision
      { previous_x_turtle1 := 0, previous_y_turtle1 := 0,
        previous_x_turtle2 := 0, previous_y_turtle2 := 0,
        turtle1_pose := some ⟨5, 5, 0⟩, turtle2_pose := some ⟨11/2, 11/2, 0⟩ } =
      [(Turtle.turtle1, { linear_x := 0, angular_z := 0 }),
       (Turtle.turtle2, { linear_x := 2, angular_z := 0 })] :=
  conflict_resolution_override _ ⟨5, 5, 0⟩ ⟨11/2, 11/2, 0⟩ rfl rfl (by norm_num [distSq])

/-- Claim C2: the conflict test holds exactly when the Euclidean distance
sqrt((x1-x2)^2 + (y1-y2)^2) is strictly below the threshold 1; in
particular a pair at distance exactly 1, such as (0,0) and (1,0), is not a
conflict. -/
theorem conflict_iff_sqrt_lt_threshold :
    (∀ p1 p2 : Pose, in_conflict p1 p2 = true ↔
      Real.sqrt (((p1.x : ℝ) - (p2.x : ℝ)) ^ 2 + ((p1.y : ℝ) - (p2.y : ℝ)) ^ 2) < 1) ∧
    in_conflict ⟨0, 0, 0⟩ ⟨1, 0, 0⟩ = false := by
  constructor
  · intro p1 p2
    rw [Real.sqrt_lt' one_pos, one_pow]
    simp only [in_conflict, distSq, decide_eq_true_eq]
    constructor
    · intro h; exact_mod_cast h
    · intro h; exact_mod_cast h
  · simp only [in_conflict, distSq]
    norm_num

/-- Counterexample to C3: the pose (9,5) lies exactly on the margin bound
x = 9, yet steer_cmd returns the cruise command, not the turn command: the
boundary comparisons in move_turtle are strict, not inclusive. -/
theorem boundary_equality_counterexample :
    steer_cmd ⟨9, 5, 0⟩ = { linear_x := 2, angular_z := 0 } ∧
    ({ linear_x := 2, angular_z := 0 } : Twist) ≠ { linear_x := 1, angular_z := 9/10 } := by
  constructor
  · rfl
  · simp only [ne_eq, Twist.mk.injEq, not_and]
    norm_num

/-- Amended C3: steer_cmd returns the turn command exactly when the pose is
strictly outside a margin bound (x > 9 or x < 2 or y > 9 or y < 2), and the
cruise command otherwise; a pose exactly on a bound receives the cruise
command. -/
theorem steer_cmd_strict_boundary (p : Pose) :
    (steer_cmd p = { linear_x := 1, angular_z := 9/10 } ↔
      (p.x > 9 ∨ p.x < 2 ∨ p.y > 9 ∨ p.y < 2)) ∧
    (steer_cmd p = { linear_x := 2, angular_z := 0 } ↔
      ¬(p.x > 9 ∨ p.x < 2 ∨ p.y > 9 ∨ p.y < 2)) := by
  by_cases h : p.x > 9 ∨ p.x < 2 ∨ p.y > 9 ∨ p.y < 2 <;>
    simp [steer_cmd, h, Twist.mk.injEq]

/-- Counterexample to C4: on a conflict tick for turtle1 the callback
publishes three commands, the baseline steering command first and then the
two overrides; the baseline (turtle1, cruise) is not one of the override
commands, so the overrides are not the only commands published that tick. -/
theorem conflict_tick_emits_baseline_too :
    (pose_callback_turtle1
        { previous_x_turtle1 := 0, previous_y_turtle1 := 0,
          previous_x_turtle2 := 0, previous_y_turtle2 := 0,
          turtle1_pose := none, turtle2_pose := some ⟨5, 5, 0⟩ } ⟨11/2, 5, 0⟩).2 =
      [(Turtle.turtle1, { linear_x := 2, angular_z := 0 }),
       (Turtle.turtle1, { linear_x := 0, angular_z := 0 }),
       (Turtle.turtle2, { linear_x := 2, angular_z := 0 })] ∧
    distSq ⟨11/2, 5, 0⟩ ⟨5, 5, 0⟩ < 1 ∧
    (Turtle.turtle1, ({ linear_x := 2, angular_z := 0 } : Twist)) ∉ avoid_collision := by
  refine ⟨?_, ?_, ?_⟩
  · simp only [pose_callback_turtle1, move_turtle, check_collision, in_conflict, distSq,
      steer_cmd, avoid_collision]
    norm_num
  · norm_num [distSq]
  · decide

/-- Amended C4: on a conflict tick the callback publishes the baseline
steering command for the updated agent first, followed by the override pair
(stop for turtle1, advance for turtle2) for both agents; the override for
each agent is the last command published to it that tick, so it supersedes
the baseline at the sink. -/
theorem conflict_tick_override_both (t : Turtle) (s : NodeState) (p q : Pose)
    (hother : otherPose t s = some q) (hc : distSq p q < 1) :
    (pose_callback t s p).2 =
      (t, steer_cmd p) ::
        [(Turtle.turtle1, { linear_x := 0, angular_z := 0 }),
         (Turtle.turtle2, { linear_x := 2, angular_z := 0 })] := by
  cases t
  case turtle1 =>
    simp only [otherPose] at hother
    simp [pose_callback, pose_callback_turtle1, move_turtle, check_collision, hother,
      in_conflict, hc, avoid_collision]
  case turtle2 =>
    simp only [otherPose] at hother
    have hc2 : distSq q p < 1 := by rw [distSq_comm]; exact hc
    simp [pose_callback, pose_callback_turtle2, move_turtle, check_collision, hother,
      in_conflict, hc2, avoid_collision]

/-- Witness for amended C4 at a concrete conflict tick. -/
theorem conflict_tick_override_both_witness :
    (pose_callback Turtle.turtle1
        { previous_x_turtle1 := 0, previous_y_turtle1 := 0,
          previous_x_turtle2 := 0, previous_y_turtle2 := 0,
          turtle1_pose := none, turtle2_pose := some ⟨5, 5, 0⟩ } ⟨11/2, 5, 0⟩).2 =
      (Turtle.turtle1, steer_cmd ⟨11/2, 5, 0⟩) ::
        [(Turtle.turtle1, { linear_x := 0, angular_z := 0 }),
         (Turtle.turtle2, { linear_x := 2, angular_z := 0 })] :=
  conflict_tick_override_both Turtle.turtle1 _ ⟨11/2, 5, 0⟩ ⟨5, 5, 0⟩ rfl
    (by norm_num [distSq])

/-- Counterexample to C5: with the prior turtle1 pose at (1,1), processing
the update (5,5) leaves previous_x_turtle1 equal to 5 (the new x), not 1
(the x held before the update): move_turtle copies the incoming pose into
the previous fields. -/
theorem previous_pose_counterexample :
    ((pose_callback_turtle1
        { previous_x_turtle1 := 1, previous_y_turtle1 := 1,
          previous_x_turtle2 := 0, previous_y_turtle2 := 0,
          turtle1_pose := some ⟨1, 1, 0⟩, turtle2_pose := none }
        ⟨5, 5, 0⟩).1.previous_x_turtle1 = 5) ∧ (5 : ℚ) ≠ 1 := by
  constructor
  · rfl
  · norm_num

/-- Amended C5: processing a pose update records the new pose as the stored
current pose of the agent and copies the coordinates of the same new pose
into the previous_x/previous_y fields, so after the update the previous
fields hold the new pose, not the pose held before. -/
theorem pose_update_records_new_pose (s : NodeState) (p : Pose) :
    ((pose_callback_turtle1 s p).1.turtle1_pose = some p ∧
     (pose_callback_turtle1 s p).1.previous_x_turtle1 = p.x ∧
     (pose_callback_turtle1 s p).1.previous_y_turtle1 = p.y) ∧
    ((pose_callback_turtle2 s p).1.turtle2_pose = some p ∧
     (pose_callback_turtle2 s p).1.previous_x_turtle2 = p.x ∧
     (pose_callback_turtle2 s p).1.previous_y_turtle2 = p.y) := by
  simp [pose_callback_turtle1, pose_callback_turtle2, move_turtle]

/-- Counterexample to C6: delivering a pose update for the unregistered
agent name turtle3 returns the unchanged state and an empty publication
list; the delivery is total and produces no error value, so no UnknownAgent
error is signalled to the caller. -/
theorem unknown_agent_counterexample :
    deliver initState unknownName ⟨5, 5, 0⟩ = (initState, []) := by
  simp [deliver, turtleOfName, unknownName]

/-- Amended C6: a pose update for any agent name outside the subscription
table is silently ignored: the state is unchanged and no command is
published; no error is signalled. -/
theorem unknown_agent_ignored (s : NodeState) (name : String) (p : Pose)
    (h : turtleOfName name = none) : deliver s name p = (s, []) := by
  simp [deliver, h]

/-- Witness for amended C6 at the concrete name turtle3. -/
theorem unknown_agent_ignored_witness :
    deliver initState unknownName ⟨5, 5, 0⟩ = (initState, []) :=
  unknown_agent_ignored initState unknownName ⟨5, 5, 0⟩ (by simp [turtleOfName, unknownName])

/-- The stored pose of agent a after a callback for agent t: the new pose
when a = t, the old stored pose otherwise. -/
theorem poseOf_callback (t a : Turtle) (s : NodeState) (p : Pose) :
    poseOf a (pose_callback t s p).1 = if a = t then some p else poseOf a s := by
  cases t <;> cases a <;>
    simp [pose_callback, pose_callback_turtle1, pose_callback_turtle2, move_turtle, poseOf]

/-- If check_collision publishes anything for agent a, both stored poses
are present. -/
theorem check_collision_agents (s : NodeState) (a : Turtle)
    (h : a ∈ (check_collision s).map Prod.fst) :
    s.turtle1_pose.isSome ∧ s.turtle2_pose.isSome := by
  cases h1 : s.turtle1_pose with
  | none => rw [check_collision, h1] at h; simp at h
  | some p1 =>
    cases h2 : s.turtle2_pose with
    | none => rw [check_collision, h1, h2] at h; simp at h
    | some p2 => simp [h1, h2]

/-- Every agent that receives a command during a callback has a stored pose
in the post-callback state. -/
theorem emitted_agent_known (t : Turtle) (s : NodeState) (p : Pose) (a : Turtle)
    (h : a ∈ ((pose_callback t s p).2.map Prod.fst)) :
    (poseOf a (pose_callback t s p).1).isSome := by
  by_cases hat : a = t
  · subst hat
    rw [poseOf_callback, if_pos rfl]
    rfl
  · rw [poseOf_callback, if_neg hat]
    have hcc : a ∈ ((check_collision (pose_callback t s p).1).map Prod.fst) := by
      cases t with
      | turtle1 =>
          simp only [pose_callback, pose_callback_turtle1, move_turtle, List.map_append,
            List.mem_append, List.map_cons, List.map_nil, List.mem_singleton] at h ⊢
          rcases h with h | h
          · exact absurd h hat
          · exact h
      | turtle2 =>
          simp only [pose_callback, pose_callback_turtle2, move_turtle, List.map_append,
            List.mem_append, List.map_cons, List.map_nil, List.mem_singleton] at h ⊢
          rcases h with h | h
          · exact absurd h hat
          · exact h
    have hks := check_collision_agents _ a hcc
    have hrw := poseOf_callback t a s p
    rw [if_neg hat] at hrw
    cases a with
    | turtle1 => rw [← hrw] at *; exact (by simpa [poseOf] using hks.1)
    | turtle2 => rw [← hrw] at *; exact (by simpa [poseOf] using hks.2)

/-- Generalised trace invariant: starting from a state whose known poses all
belong to the set R of already-reported agents, every agent that receives a
command during a run either was in R or sends an update in the run. -/
theorem runEmits_agents (events : List (Turtle × Pose)) (s : NodeState) (R : List Turtle)
    (hs : ∀ b : Turtle, (poseOf b s).isSome → b ∈ R) (a : Turtle)
    (h : a ∈ (runEmits s events).map Prod.fst) :
    a ∈ R ∨ a ∈ events.map Prod.fst := by
  induction events generalizing s R with
  | nil => rw [runEmits] at h; simp at h
  | cons e rest ih =>
    obtain ⟨t, p⟩ := e
    rw [runEmits, List.map_append, List.mem_append] at h
    have hpost : ∀ b : Turtle, (poseOf b (pose_callback t s p).1).isSome → b ∈ t :: R := by
      intro b hb
      rw [poseOf_callback] at hb
      by_cases hbt : b = t
      · exact hbt ▸ List.mem_cons_self _ _
      · rw [if_neg hbt] at hb
        exact List.mem_cons_of_mem _ (hs b hb)
    rcases h with h | h
    · have hk := emitted_agent_known t s p a h
      rcases List.mem_cons.mp (hpost a hk) with h1 | h1
      · right; simp [h1]
      · left; exact h1
    · rcases ih (pose_callback t s p).1 (t :: R) hpost h with h1 | h1
      · rcases List.mem_cons.mp h1 with h2 | h2
        · right; simp [h2]
        · left; exact h2
      · right; simp [h1]

/-- Claim C7: in every run from the constructor state, an agent receives a
command only if it sends a pose update in the run; since the statement
quantifies over all event lists it applies to every prefix of a run, so no
command is published for an agent before its first reported pose, and the
conflict pair, which requires both stored poses, can only be published once
both agents have reported. -/
theorem command_only_after_pose (events : List (Turtle × Pose)) (a : Turtle)
    (h : a ∈ (runEmits initState events).map Prod.fst) :
    a ∈ events.map Prod.fst := by
  have hs : ∀ b : Turtle, (poseOf b initState).isSome → b ∈ ([] : List Turtle) := by
    intro b hb
    cases b <;> simp [poseOf, initState] at hb
  rcases runEmits_agents events initState [] hs a h with h1 | h1
  · simp at h1
  · exact h1

/-- Witness for C7: turtle1 receives a command in the one-event run in which
it reports (5,5), and indeed appears among the event senders. -/
theorem command_only_after_pose_witness :
    Turtle.turtle1 ∈ ([(Turtle.turtle1, (⟨5, 5, 0⟩ : Pose))].map Prod.fst) :=
  command_only_after_pose [(Turtle.turtle1, ⟨5, 5, 0⟩)] Turtle.turtle1 (by
    simp [runEmits, pose_callback, pose_callback_turtle1, move_turtle, check_collision,
      steer_cmd])

/-- Claim C8: on a tick where the other pose is absent or the pair is not in
conflict, the callback publishes exactly one command, the baseline steering
command for the agent whose pose just updated, and nothing for the other
agent. -/
theorem clear_tick_single_emit (t : Turtle) (s : NodeState) (p : Pose)
    (hnc : ∀ q : Pose, otherPose t s = some q → ¬ distSq p q < 1) :
    (pose_callback t s p).2 = [(t, steer_cmd p)] := by
  cases t
  case turtle1 =>
    cases h2 : s.turtle2_pose with
    | none => simp [pose_callback, pose_callback_turtle1, move_turtle, check_collision, h2]
    | some q =>
        have hq := hnc q (by simpa [otherPose] using h2)
        simp [pose_callback, pose_callback_turtle1, move_turtle, check_collision, h2,
          in_conflict, hq]
  case turtle2 =>
    cases h1 : s.turtle1_pose with
    | none => simp [pose_callback, pose_callback_turtle2, move_turtle, check_collision, h1]
    | some q =>
        have hq := hnc q (by simpa [otherPose] using h1)
        have hq2 : ¬ distSq q p < 1 := by rw [distSq_comm]; exact hq
        simp [pose_callback, pose_callback_turtle2, move_turtle, check_collision, h1,
          in_conflict, hq2]

/-- Witness for C8: turtle1 updates to (5,5) while turtle2 sits at (8,8),
distance far above the threshold, and exactly the baseline command for
turtle1 is published. -/
theorem clear_tick_single_emit_witness :
    (pose_callback Turtle.turtle1
        { previous_x_turtle1 := 0, previous_y_turtle1 := 0,
          previous_x_turtle2 := 0, previous_y_turtle2 := 0,
          turtle1_pose := none, turtle2_pose := some ⟨8, 8, 0⟩ } ⟨5, 5, 0⟩).2 =
      [(Turtle.turtle1, steer_cmd ⟨5, 5, 0⟩)] :=
  clear_tick_single_emit Turtle.turtle1 _ ⟨5, 5, 0⟩ (by
    intro q hq
    simp only [otherPose, Option.some.injEq] at hq
    subst hq
    norm_num [distSq])

/-- Claim C9: two states that agree on both stored poses but differ
arbitrarily in the previous_x/previous_y fields publish identical command
lists for the same pose update: the previous fields never influence a
control decision. -/
theorem emit_independent_of_previous (t : Turtle) (a b : NodeState) (p : Pose)
    (h1 : a.turtle1_pose = b.turtle1_pose) (h2 : a.turtle2_pose = b.turtle2_pose) :
    (pose_callback t a p).2 = (pose_callback t b p).2 := by
  cases t <;>
    simp [pose_callback, pose_callback_turtle1, pose_callback_turtle2, move_turtle,
      check_collision, h1, h2]

/-- Witness for C9: two states with the same stored poses and different
previous fields publish the same commands. -/
theorem emit_independent_of_previous_witness :
    (pose_callback Turtle.turtle1
        { previous_x_turtle1 := 1, previous_y_turtle1 := 2,
          previous_x_turtle2 := 3, previous_y_turtle2 := 4,
          turtle1_pose := some ⟨5, 5, 0⟩, turtle2_pose := some ⟨8, 8, 0⟩ } ⟨5, 5, 0⟩).2 =
    (pose_callback Turtle.turtle1
        { previous_x_turtle1 := 9, previous_y_turtle1 := 8,
          previous_x_turtle2 := 7, previous_y_turtle2 := 6,
          turtle1_pose := some ⟨5, 5, 0⟩, turtle2_pose := some ⟨8, 8, 0⟩ } ⟨5, 5, 0⟩).2 :=
  emit_independent_of_previous Turtle.turtle1 _ _ ⟨5, 5, 0⟩ rfl rfl

/-- Claim C10: the steering command ignores the heading field of the pose,
and every pose strictly outside a margin bound receives the one fixed turn
command with angular speed 0.9, whichever edge is near and whichever way
the agent faces. -/
theorem steer_heading_independent :
    (∀ x y t1 t2 : ℚ, steer_cmd ⟨x, y, t1⟩ = steer_cmd ⟨x, y, t2⟩) ∧
    (∀ p : Pose, (p.x > 9 ∨ p.x < 2 ∨ p.y > 9 ∨ p.y < 2) →
      steer_cmd p = { linear_x := 1, angular_z := 9/10 }) := by
  constructor
  · intro x y t1 t2; rfl
  · intro p h; simp [steer_cmd, h]

/-- Witness for C10 at the pose (10,5) with two different headings. -/
theorem steer_heading_independent_witness :
    steer_cmd ⟨10, 5, 0⟩ = steer_cmd ⟨10, 5, 1⟩ ∧
    steer_cmd ⟨10, 5, 0⟩ = { linear_x := 1, angular_z := 9/10 } :=
  ⟨steer_heading_independent.1 10 5 0 1,
   steer_heading_independent.2 ⟨10, 5, 0⟩ (Or.inl (by norm_num))⟩

end Decon
